import Mathlib

/-!
Verification of the rtla timerlat plugin.

A shallow embedding of the `arcaflow-plugin-rtla` sources
(`rtla_plugin.py`, `rtla_schema.py`) together with theorems settling the
frozen claims about the plugin's behaviour.

Modelling conventions:
* Python strings are Lean `String`s; the character-class predicates
  (`str.isdigit`, `\w`, `int()`, `float()`) are modelled on their ASCII
  behaviour, which is the alphabet of the rtla report and of the kernel
  trace format the plugin consumes.
* Python `dict`s (which preserve insertion order) are association lists
  with insert-or-update (`dset`) and lookup (`dget?`).
* `int()` / `float()` raising `ValueError`, indexing raising `IndexError`,
  and reading an unassigned local raising `NameError`/`UnboundLocalError`
  are modelled with an explicit exception type `PyExc`; a run of the step
  either returns a success output, returns the plugin's `ErrorOutput`
  ("error outcome"), or escapes with an uncaught exception.
* `float` values that the plugin only parses, subtracts and compares
  (trace timestamps) are modelled as exact rationals; the decimal literals
  appearing in the concrete inputs below are exactly representable, so the
  idealization does not change any comparison that the theorems rely on.
* The arcaflow SDK (schema framework, `unserialize`) is an external
  collaborator (spec §1 places it out of scope); its object-schema
  `unserialize` is modelled as converting the four known statistic labels
  to optional integers and rejecting anything else.
-/

/-! ## Python primitives -/

/-- Whitespace splitter over the character list: emits the collected
current fragment (reversed accumulator) at each whitespace run and at the
end, skipping empty fragments. -/
def splitWsAux : List Char → List Char → List String
  | [], cur => if cur.isEmpty then [] else [String.mk cur.reverse]
  | c :: cs, cur =>
    if c.isWhitespace then
      (if cur.isEmpty then [] else [String.mk cur.reverse]) ++ splitWsAux cs []
    else splitWsAux cs (c :: cur)

/-- Models Python `str.split()` with no argument: split on runs of
whitespace, discarding empty fragments.  (Implemented over the character
list so that proofs reduce.) -/
def pySplit (s : String) : List String :=
  splitWsAux s.data []

/-- Models Python `str.isdigit()` on ASCII text: non-empty and all
characters are decimal digits. -/
def pyIsDigit (s : String) : Bool :=
  !s.data.isEmpty && s.data.all Char.isDigit

/-- Models Python `s.startswith(pre)`. -/
def pyStartsWith (s pre : String) : Bool :=
  pre.data.isPrefixOf s.data

/-- Models Python `s.lower()` on ASCII text. -/
def pyToLower (s : String) : String :=
  String.mk (s.data.map Char.toLower)

/-- Models Python `s[:-1]`: the string with its final character removed
(empty input yields the empty string). -/
def pyDropLast (s : String) : String :=
  String.mk s.data.dropLast

/-- Models Python `s[1:-1]`: drop the first and the last character. -/
def pySlice1m1 (s : String) : String :=
  String.mk (s.data.drop 1).dropLast

/-- Auxiliary digit-run scanner for Python numeric literals: after an
initial digit, accepts further digits with single underscores allowed
between digits (Python's `digit (["_"] digit)*`).  Returns the
accumulated value and the number of digits consumed. -/
def pyDigitpartAux : List Char → Nat → Nat → Option (Nat × Nat)
  | [], acc, n => some (acc, n)
  | '_' :: c :: cs, acc, n =>
    if c.isDigit then pyDigitpartAux cs (acc * 10 + (c.toNat - 48)) (n + 1) else none
  | ['_'], _, _ => none
  | c :: cs, acc, n =>
    if c.isDigit then pyDigitpartAux cs (acc * 10 + (c.toNat - 48)) (n + 1) else none

/-- Models Python's `digitpart` grammar (`digit (["_"] digit)*`): value and
digit count, or `none` when the character list is not a digit part. -/
def pyDigitpart? : List Char → Option (Nat × Nat)
  | [] => none
  | c :: cs =>
    if c.isDigit then pyDigitpartAux cs (c.toNat - 48) 1 else none

/-- Models Python `int(s)` for a whitespace-free string: optional sign
followed by a digit part; `none` models `ValueError`. -/
def pyInt? (s : String) : Option Int :=
  match s.data with
  | '+' :: cs => (pyDigitpart? cs).map fun p => (p.1 : Int)
  | '-' :: cs => (pyDigitpart? cs).map fun p => -(p.1 : Int)
  | cs => (pyDigitpart? cs).map fun p => (p.1 : Int)

/-- Splits a character list at the first occurrence of a character
satisfying `p`; the matched character is dropped. -/
def splitAtFirst (p : Char → Bool) : List Char → List Char × Option (List Char)
  | [] => ([], none)
  | c :: cs =>
    if p c then ([], some cs)
    else
      let r := splitAtFirst p cs
      (c :: r.1, r.2)

/-- Mantissa of a Python float literal: `D`, `D.`, `D.F` or `.F` with `D`,
`F` digit parts.  Returns numerator and the number of fractional digits. -/
def pyFloatMantissa? (cs : List Char) : Option (Nat × Nat) :=
  match splitAtFirst (fun c => c = '.') cs with
  | (ip, none) => (pyDigitpart? ip).map fun p => (p.1, 0)
  | ([], some fp) => pyDigitpart? fp
  | (ip, some []) => (pyDigitpart? ip).map fun p => (p.1, 0)
  | (ip, some fp) =>
    match pyDigitpart? ip, pyDigitpart? fp with
    | some p, some q => some (p.1 * 10 ^ q.2 + q.1, q.2)
    | _, _ => none

/-- Signed exponent of a Python float literal. -/
def pyFloatExp? (cs : List Char) : Option Int :=
  match cs with
  | '+' :: cs => (pyDigitpart? cs).map fun p => (p.1 : Int)
  | '-' :: cs => (pyDigitpart? cs).map fun p => -(p.1 : Int)
  | cs => (pyDigitpart? cs).map fun p => (p.1 : Int)

/-- Models Python `float(s)` on finite decimal literals (optional sign,
digits with optional fraction, optional exponent), as an exact rational.
`inf`/`nan` are not representable in `ℚ` and are outside the model; the
trace timestamps the plugin parses are plain fixed-point decimals.
`none` models `ValueError`. -/
def pyFloat? (s : String) : Option ℚ :=
  let (sgn, cs) : Int × List Char :=
    match s.data with
    | '+' :: cs => (1, cs)
    | '-' :: cs => (-1, cs)
    | cs => (1, cs)
  match splitAtFirst (fun c => c = 'e' ∨ c = 'E') cs with
  | (mant, none) =>
    (pyFloatMantissa? mant).map fun m =>
      (sgn * (m.1 : Int) : ℚ) / ((10 : ℚ) ^ m.2)
  | (mant, some ex) =>
    match pyFloatMantissa? mant, pyFloatExp? ex with
    | some m, some e =>
      some ((sgn * (m.1 : Int) : ℚ) / ((10 : ℚ) ^ m.2) * (10 : ℚ) ^ e)
    | _, _ => none

/-! ## Ordered dictionaries (Python `dict`) -/

/-- Ordered-dictionary lookup (`d[k]` / `d.get(k)`). -/
def dget? {α : Type} : List (String × α) → String → Option α
  | [], _ => none
  | (k', v) :: d, k => if k' = k then some v else dget? d k

/-- Ordered-dictionary assignment `d[k] = v`: update in place when the key
is present, append otherwise — Python dicts preserve insertion order. -/
def dset {α : Type} : List (String × α) → String → α → List (String × α)
  | [], k, v => [(k, v)]
  | (k', v') :: d, k, v =>
    if k' = k then (k', v) :: d else (k', v') :: dset d k v

theorem dget?_dset_self {α : Type} (d : List (String × α)) (k : String) (v : α) :
    dget? (dset d k v) k = some v := by
  induction d with
  | nil => simp [dget?, dset]
  | cons kv d ih =>
    by_cases h : kv.1 = k <;> simp [dget?, dset, h, ih]

theorem dget?_dset_ne {α : Type} (d : List (String × α)) (k k' : String) (v : α)
    (h : k ≠ k') : dget? (dset d k v) k' = dget? d k' := by
  induction d with
  | nil => simp [dget?, dset, h]
  | cons kv d ih =>
    obtain ⟨k1, v1⟩ := kv
    by_cases h2 : k1 = k
    · subst h2
      simp [dget?, dset, h]
    · by_cases h3 : k1 = k' <;> simp [dget?, dset, h2, h3, ih, Ne.symm h]

/-! ## `rtla_schema.py`: input parameters and the flag builder -/

/-- One value of the dictionary handed to `params_to_flags`
(`rtla_schema.py`, `TimerlatInputParams.to_flags`): an optional integer,
an optional integer list, or an optional boolean. -/
inductive FlagVal : Type
  | vInt (i : Option Int)
  | vList (l : Option (List Int))
  | vBool (b : Option Bool)
deriving DecidableEq, Repr

/-- Python truthiness (`if not value: continue`) of a `FlagVal`:
`None`, `False`, `0` and `[]` are falsy. -/
def FlagVal.truthy : FlagVal → Bool
  | .vInt none => false
  | .vInt (some i) => i ≠ 0
  | .vList none => false
  | .vList (some l) => !l.isEmpty
  | .vBool none => false
  | .vBool (some b) => b

/-- The function `params_to_flags` from `rtla_schema.py`: skip falsy values, emit
`-{key}`, then for a list the comma-join of its elements, for a
non-boolean the stringified value, and nothing more for a boolean. -/
def params_to_flags (params : List (String × FlagVal)) : List String :=
  params.foldl
    (fun result kv =>
      if kv.2.truthy then
        result ++ [("-" ++ kv.1)] ++
          (match kv.2 with
           | .vList (some l) => [String.intercalate "," (l.map toString)]
           | .vInt (some i) => [toString i]
           | _ => [])
      else result)
    []

/-- The dataclass `TimerlatInputParams` from `rtla_schema.py`.

The last two fields are referenced by `rtla_plugin.py`
(`params.enable_time_series`, `params.time_series_resolution`) but are
absent from the `rtla_schema.py` in the tree (which only declares
`enable_timeseries` and no resolution field).  Modelled from the spec:
§3's CollectionRequest lists a "time-series enable flag" and a
"time-series minimum sampling interval". -/
structure TimerlatInputParams where
  period : Option Int := none
  cpus : Option (List Int) := none
  house_keeping : Option (List Int) := none
  duration : Option Int := none
  nano : Option Bool := none
  bucket_size : Option Int := none
  entries : Option Int := none
  user_threads : Option Bool := none
  enable_timeseries : Option Bool := some false
  enable_time_series : Bool := false
  time_series_resolution : ℚ := 1
deriving DecidableEq, Repr

/-- The method `TimerlatInputParams.to_flags` from `rtla_schema.py`: the fixed
insertion-ordered dictionary of single-character flags. -/
def TimerlatInputParams.to_flags (p : TimerlatInputParams) : List String :=
  params_to_flags
    [("p", .vInt p.period),
     ("c", .vList p.cpus),
     ("H", .vList p.house_keeping),
     ("d", .vInt p.duration),
     ("n", .vBool p.nano),
     ("b", .vInt p.bucket_size),
     ("E", .vInt p.entries),
     ("u", .vBool p.user_threads)]

/-- Python truthiness of the optional boolean fields
(`if params.user_threads:`). -/
def pyTruthyBool (b : Option Bool) : Bool :=
  match b with
  | some true => true
  | _ => false

/-- Python truthiness of the optional CPU list (`if params.cpus`). -/
def pyTruthyList (l : Option (List Int)) : Bool :=
  match l with
  | some (_ :: _) => true
  | _ => false

/-! ## Data model of the outputs -/

/-- A value stored in a histogram / statistics row: the index column
holds an `int` for histogram rows and a `str` for statistics rows, the
data columns hold `int`s. -/
inductive PyVal : Type
  | int (i : Int)
  | str (s : String)
deriving DecidableEq, Repr

/-- One report row: a Python dict from lower-cased column name to value. -/
abbrev ReportRow : Type := List (String × PyVal)

/-- The dataclass `LatencyStats` from `rtla_schema.py`: four nullable integers. -/
structure LatencyStats where
  count : Option Int := none
  min : Option Int := none
  avg : Option Int := none
  max : Option Int := none
deriving DecidableEq, Repr

/-- One time-series sample (`latency_timeseries_schema` record).  The
plugin stores the derived wall-clock timestamp
(`uptimestamp + uptime_offset`, which `datetime` then renders as an ISO
string); we keep the numeric value, an abstraction of the rendering. -/
structure TSPoint where
  timestamp : ℚ
  latency : Int
deriving DecidableEq, Repr

/-- The dataclass `TimerlatOutput` from `rtla_schema.py` (success payload). -/
structure TimerlatOutput where
  time_unit : String
  latency_hist : List ReportRow
  stats_per_col : List ReportRow
  total_irq_latency : LatencyStats
  total_thr_latency : LatencyStats
  total_usr_latency : Option LatencyStats
  latency_timeseries : Option (List (String × List TSPoint))
deriving DecidableEq, Repr

/-- Python exceptions the embedded code can raise.
`calledProcessError` carries a return code and captured output;
`nameError` carries the unassigned local's name (CPython raises
`UnboundLocalError`, a `NameError` subclass). -/
inductive PyExc : Type
  | valueError (tok : String)
  | indexError
  | nameError (var : String)
  | fileNotFoundError
  | permissionError
  | calledProcessError (returncode : Int) (output : String)
deriving DecidableEq, Repr

/-- Outcome of one invocation of `run_timerlat`: the `"success"` tuple,
the `"error"` tuple carrying an `ErrorOutput` message, or an uncaught
Python exception escaping the step function. -/
inductive RunResult : Type
  | success (out : TimerlatOutput)
  | errorOutput (msg : String)
  | uncaughtExc (e : PyExc)
deriving DecidableEq, Repr

/-! ## Report Parser (`rtla_plugin.py` lines 162-213) -/

/-- A `\w` word character under ASCII (used by the time-unit regex). -/
def isWordChar (c : Char) : Bool :=
  c.isAlphanum || c = '_'

/-- Models `re.match(r"# Time unit is (\w+)", line)`: anchored at the
start of the line, the group is the maximal nonempty word-character run
after the literal prefix. -/
def isTimeUnitMatch (line : String) : Option String :=
  if pyStartsWith line "# Time unit is " then
    let w := (line.data.drop "# Time unit is ".data.length).takeWhile isWordChar
    if w.isEmpty then none else some (String.mk w)
  else none

/-- Phase 1 of the report parser (lines 176-183): scan for the time-unit
declaration and stop at the `Index` header line, returning the captured
time unit, the lower-cased column headers, and the unconsumed lines.  If
no header line occurs the iterator is exhausted and the remainder is
empty. -/
def phase1 : List String → String → String × List String × List String
  | [], tu => (tu, [], [])
  | l :: ls, tu =>
    match isTimeUnitMatch l with
    | some u => phase1 ls u
    | none =>
      if pyStartsWith l "Index" then (tu, pySplit (pyToLower l), ls)
      else phase1 ls tu

/-- Models `dict(zip(col_headers[1:], map(int, line_list[1:])))`: `zip`
stops at the shorter sequence and pulls the lazily mapped `int` calls one
by one, so a malformed token is only ever converted — and only ever
raises — when it is within the column range, and conversion stops at the
first failure. -/
def rowZipPairs : List String → List String → Except PyExc (List (String × Int))
  | [], _ => .ok []
  | _, [] => .ok []
  | c :: cs, t :: ts =>
    match pyInt? t with
    | none => .error (.valueError t)
    | some v => (rowZipPairs cs ts).map fun rest => (c, v) :: rest

/-- Builds one Phase-2 row object from the column headers and the split
line (lines 192-203): the index cell from the first token (statistics
labels keep their text with the final character stripped, histogram
indices are parsed integers), merged with the zipped data columns — the
dict union `row_obj | dict(zip(...))` updates in place and appends new
keys in order, which equals folding `dset` over the raw pairs.  Also
reports whether the row is a statistics row (non-digit first token). -/
def buildRow (cols : List String) (t0 : String) (rest : List String) :
    Except PyExc (ReportRow × Bool) :=
  match cols with
  | [] => .error .indexError
  | c0 :: ctail =>
    let (idxVal, isStats) : PyVal × Bool :=
      if pyIsDigit t0 then
        (.int ((pyInt? t0).getD 0), false)
      else
        (.str (pyDropLast t0), true)
    (rowZipPairs ctail rest).map fun pairs =>
      (pairs.foldl (fun row kv => dset row kv.1 (.int kv.2)) [(c0, idxVal)], isStats)

/-- Phase-2 accumulator state: the two row sequences plus the aliasing
`accumulator` variable (`True` once it points at `stats_per_col`; it is
switched there on the first non-digit first token and never switched
back). -/
structure P2State where
  hist : List ReportRow
  stats : List ReportRow
  accIsStats : Bool
deriving DecidableEq, Repr

/-- The initial Phase-2 state: `accumulator = latency_hist`. -/
def P2State.init : P2State := ⟨[], [], false⟩

/-- Result of processing one Phase-2 line: continue with a new state,
break out of the phase (`ALL` prefix seen, line consumed), or raise. -/
inductive P2StepRes : Type
  | cont (st : P2State)
  | brk
  | exc (e : PyExc)
deriving DecidableEq, Repr

/-- One iteration of the Phase-2 loop (lines 186-204).  An empty line has
no `line_list[0]` and raises `IndexError`; a first token with prefix
`ALL` breaks out of the loop; otherwise the row is built and appended to
whichever sequence `accumulator` currently aliases. -/
def phase2Step (cols : List String) (st : P2State) (line : String) : P2StepRes :=
  match pySplit line with
  | [] => .exc .indexError
  | t0 :: rest =>
    if pyStartsWith t0 "ALL" then .brk
    else
      match buildRow cols t0 rest with
      | .error e => .exc e
      | .ok (row, isStats) =>
        let acc := st.accIsStats || isStats
        if acc then .cont ⟨st.hist, st.stats ++ [row], acc⟩
        else .cont ⟨st.hist ++ [row], st.stats, acc⟩

/-- A partial Phase-2 run: `mid st` means every line was consumed without
breaking, `done st rest` means the `ALL` line was consumed and `rest` is
what the shared iterator still holds, `exc` propagates a raise. -/
inductive P2RunRes : Type
  | mid (st : P2State)
  | done (st : P2State) (rest : List String)
  | exc (e : PyExc)
deriving DecidableEq, Repr

/-- Phase 2 over a line sequence. -/
def phase2Run (cols : List String) (st : P2State) : List String → P2RunRes
  | [] => .mid st
  | l :: ls =>
    match phase2Step cols st l with
    | .cont st' => phase2Run cols st' ls
    | .brk => .done st ls
    | .exc e => .exc e

/-- Phase 3 of the report parser (lines 207-213): each remaining line's
first token (final character stripped) becomes a key of the three
aggregate dicts, whose values are the raw 2nd/3rd/4th tokens — the user
dict is only written when the user-threads flag is truthy.  Missing
tokens raise `IndexError`. -/
def phase3 (user : Bool) :
    List (String × String) → List (String × String) → List (String × String) →
    List String → Except PyExc
      (List (String × String) × List (String × String) × List (String × String))
  | irq, thr, usr, [] => .ok (irq, thr, usr)
  | irq, thr, usr, l :: ls =>
    match pySplit l with
    | [] => .error .indexError
    | t0 :: rest =>
      let label := pyDropLast t0
      match rest with
      | v1 :: v2 :: rest2 =>
        let irq' := dset irq label v1
        let thr' := dset thr label v2
        if user then
          match rest2 with
          | v3 :: _ => phase3 user irq' thr' (dset usr label v3) ls
          | [] => .error .indexError
        else phase3 user irq' thr' usr ls
      | _ => .error .indexError

/-- Models the external SDK's `latency_stats_schema.unserialize` (the
schema framework is out of scope per spec §1): the four known labels'
string values become optional integers, a label outside the schema or an
unconvertible value is rejected. -/
def unserializeStats (d : List (String × String)) : Except PyExc LatencyStats := do
  let conv : String → Except PyExc (Option Int) := fun k =>
    match dget? d k with
    | none => .ok none
    | some s =>
      match pyInt? s with
      | none => .error (.valueError s)
      | some v => .ok (some v)
  if d.all fun kv => kv.1 = "count" ∨ kv.1 = "min" ∨ kv.1 = "avg" ∨ kv.1 = "max" then
    return { count := ← conv "count", min := ← conv "min",
             avg := ← conv "avg", max := ← conv "max" }
  else
    .error (.valueError "unknown field")

/-- The values the report parse contributes to `TimerlatOutput`. -/
structure ParsedReport where
  time_unit : String
  latency_hist : List ReportRow
  stats_per_col : List ReportRow
  total_irq_latency : LatencyStats
  total_thr_latency : LatencyStats
  total_usr_latency : Option LatencyStats
deriving DecidableEq, Repr

/-- Phase 3 over whatever the shared line iterator still holds, followed
by the aggregate unserialization of lines 309-319 (the user aggregate is
unserialized — and hence present — exactly when the user-threads flag is
truthy). -/
def parseReportPost (tu : String) (st : P2State) (rest3 : List String)
    (p : TimerlatInputParams) : Except PyExc ParsedReport := do
  let (irq, thr, usr) ← phase3 (pyTruthyBool p.user_threads) [] [] [] rest3
  let irqStats ← unserializeStats irq
  let thrStats ← unserializeStats thr
  let usrStats ← if pyTruthyBool p.user_threads then
      (unserializeStats usr).map some
    else pure none
  return ⟨tu, st.hist, st.stats, irqStats, thrStats, usrStats⟩

/-- The whole report parse (lines 162-213 plus the aggregate
unserialization at lines 309-319): the three phases run over one shared
line iterator — when Phase 2 exhausts it, Phase 3 loops over nothing. -/
def parseReport (lines : List String) (p : TimerlatInputParams) :
    Except PyExc ParsedReport :=
  let (tu, cols, rest) := phase1 lines ""
  match phase2Run cols P2State.init rest with
  | .exc e => .error e
  | .mid st => parseReportPost tu st [] p
  | .done st rest3 => parseReportPost tu st rest3 p

/-! ## Process orchestration (`rtla_plugin.py` lines 21-129) -/

/-- Why `self.exit.wait(params.duration)` stopped blocking: the duration
elapsed (the wait timed out), the cancel signal fired (`cancel_step` set
the event), or a `KeyboardInterrupt`/`SystemExit` was raised into the
wait. -/
inductive StopReason : Type
  | durationElapsed
  | cancelSignal
  | keyboardInterrupt
deriving DecidableEq, Repr

/-- Value of `self.finished_early` after the wait: the constructor
initializes it to `False`; `cancel_step` (line 34) and the
`KeyboardInterrupt` handler (line 117) set it to `True`; a plain timeout
leaves it untouched. -/
def finishedEarlyAfterWait : StopReason → Bool
  | .durationElapsed => false
  | .cancelSignal => true
  | .keyboardInterrupt => true

/-- Observable actions of the post-wait block.  `Popen.send_signal`
delivers the signal to the child process itself (not to its process
group, even though the child was started in a new session). -/
inductive OrchAction : Type
  | sendSigintTimerlatProc
  | sendSigintTimeseriesProc
  | closeTimeseriesFile
  | communicateTimerlat
deriving DecidableEq, Repr

/-- The action sequence of lines 121-129: SIGINT to the rtla process only
when `finished_early` is set; SIGINT to the trace-mirroring process and
closing its file only when time series are enabled and the trace file was
found; then `communicate()` reads the captured stdout to completion. -/
def postWaitActions (finishedEarly enableTS traceFileExists : Bool) :
    List OrchAction :=
  (if finishedEarly then [.sendSigintTimerlatProc] else []) ++
  (if enableTS && traceFileExists then
    [.sendSigintTimeseriesProc, .closeTimeseriesFile]
  else []) ++
  [.communicateTimerlat]

/-- How `subprocess.Popen` behaved when the step launched the rtla
command (line 59): it either produced a process handle, or raised. -/
inductive LaunchOutcome : Type
  | started
  | raised (e : PyExc)
deriving DecidableEq, Repr

/-- The exceptions CPython's `subprocess.Popen` can raise when the
executable cannot be started: `OSError` subclasses such as
`FileNotFoundError` and `PermissionError`.  `Popen` never raises
`CalledProcessError` — that exception belongs to `check_call`-style
wrappers — so the `except subprocess.CalledProcessError` clause at
line 66 can never fire. -/
def popenCanRaise : PyExc → Bool
  | .fileNotFoundError => true
  | .permissionError => true
  | _ => false

/-! ## Timeseries Parser (`rtla_plugin.py` lines 226-307) -/

/-- State of the trace-line loop: the per-key point series
(`timeseries_dict`), the per-key last retained monotonic timestamp
(`last_uptimestamp`), and the Python local `cpu`, which is only assigned
when a bracketed CPU token parses and otherwise keeps its value from an
earlier line (`none` = never assigned yet). -/
structure TSState where
  td : List (String × List TSPoint)
  lastUp : List (String × ℚ)
  cpuVar : Option Int
deriving DecidableEq, Repr

/-- The initial trace-loop state (lines 72-73). -/
def TSState.init : TSState := ⟨[], [], none⟩

/-- Result of one trace line: continue, break out of the loop with the
line's effects applied (format mismatch: all collected data discarded),
or an uncaught exception. -/
inductive TSStepRes : Type
  | cont (st : TSState)
  | halt (st : TSState)
  | exc (e : PyExc)
deriving DecidableEq, Repr

/-- The bracket heuristic of lines 248-261: `enumerate` only ever yields
in-range indices, so only `i == 1` acts and the inner `IndexError` branch
is unreachable; on a parse failure the token at index 1 is popped once
and — because the popped element's successors shift left while the
enumeration counter moves on — position 1 is never retried, so `cpu`
stays unassigned for this line. -/
def bracketScan (toks : List String) (cpuVar : Option Int) :
    List String × Option Int :=
  match toks.get? 1 with
  | none => (toks, cpuVar)
  | some t1 =>
    match pyInt? (pySlice1m1 t1) with
    | some c => (toks, some c)
    | none => (toks.eraseIdx 1, cpuVar)

/-- The field extraction of lines 266-274 on the (possibly popped) token
list: monotonic timestamp from token 3 (final character stripped),
context label from token 6, latency from token 8; `none` models the
`IndexError`/`ValueError` caught at line 276. -/
def extract4 (toks : List String) : Option (ℚ × String × Int) := do
  let t3 ← toks.get? 3
  let up ← pyFloat? (pyDropLast t3)
  let ctx ← toks.get? 6
  let t8 ← toks.get? 8
  let lat ← pyInt? t8
  pure (up, ctx, lat)

/-- Lines 288-307 for a sample that passed the CPU filter: build the
`"cpu{N}_{context}"` key, initialize the two dict entries when absent,
apply the downsampling gap test — which is skipped while the stored last
timestamp is falsy (`0`) — and on retention record the new last timestamp
and append the point (whose stored timestamp is the derived wall-clock
value `uptimestamp + uptime_offset`). -/
def tsProceed (p : TimerlatInputParams) (off : ℚ) (st : TSState)
    (up : ℚ) (ctx : String) (lat : Int) (c : Int) : TSState :=
  let key := "cpu" ++ toString c ++ "_" ++ ctx
  let td := if (dget? st.td key).isSome then st.td else dset st.td key []
  let lastUp := if (dget? st.lastUp key).isSome then st.lastUp
    else dset st.lastUp key 0
  let l := (dget? lastUp key).getD 0
  if l ≠ 0 ∧ up - l < p.time_series_resolution then
    ⟨td, lastUp, some c⟩
  else
    let pts := (dget? td key).getD []
    ⟨dset td key (pts ++ [⟨up + off, lat⟩]), dset lastUp key up, some c⟩

/-- One iteration of the trace-line loop (lines 241-307) with
`uptime_offset = off`: scan for the CPU, extract the other three fields
(failure discards everything collected so far and breaks), filter on the
requested CPU set, then hand the sample to `tsProceed`.
Reading `cpu` before any line ever assigned it raises an
`UnboundLocalError`. -/
def tsStep (p : TimerlatInputParams) (off : ℚ) (st : TSState) (line : String) :
    TSStepRes :=
  let (toks, cpuVar) := bracketScan (pySplit line) st.cpuVar
  match extract4 toks with
  | none => .halt ⟨[], st.lastUp, cpuVar⟩
  | some (up, ctx, lat) =>
    if pyTruthyList p.cpus then
      match cpuVar with
      | none => .exc (.nameError "cpu")
      | some c =>
        if c ∈ (p.cpus.getD []) then .cont (tsProceed p off st up ctx lat c)
        else .cont ⟨st.td, st.lastUp, some c⟩
    else
      match cpuVar with
      | none => .exc (.nameError "cpu")
      | some c => .cont (tsProceed p off st up ctx lat c)

/-- The trace-line loop folded over the captured lines: a break yields the
halting state, an exception escapes. -/
def tsFold (p : TimerlatInputParams) (off : ℚ) :
    TSState → List String → Except PyExc TSState
  | st, [] => .ok st
  | st, l :: ls =>
    match tsStep p off st l with
    | .cont st' => tsFold p off st' ls
    | .halt st' => .ok st'
    | .exc e => .error e

/-- Models `all(False for _ in timeseries_output)` at line 235: `all`
pulls the generator, which reads lines from the shared file iterator; a
non-empty file makes the first pulled element `False`, so `all`
short-circuits after consuming exactly one line — which the subsequent
`for` loop therefore never sees.  Returns the emptiness verdict and what
the file iterator still holds. -/
def pyAllFalseConsume (lines : List String) : Bool × List String :=
  match lines with
  | [] => (true, [])
  | _ :: rest => (false, rest)

/-- The time-series section over the captured trace-file lines
(lines 233-307): the emptiness check, then the line loop from the
initial state. -/
def tsSection (p : TimerlatInputParams) (off : ℚ) (traceLines : List String) :
    Except PyExc (List (String × List TSPoint)) :=
  let (_, rest) := pyAllFalseConsume traceLines
  (tsFold p off TSState.init rest).map fun st => st.td

/-! ## The full step (`run_timerlat`) -/

/-- The environment a single invocation runs against: how `Popen`
behaved, whether the trace file appeared within the bounded poll, the
rtla process's captured stdout (split into lines), the bytes the trace
mirror captured (split into lines), the one-time
`time.time() - time.monotonic()` offset, and why the wait stopped. -/
structure RunEnv where
  launch : LaunchOutcome
  traceFileExists : Bool
  timerlatOutput : List String
  traceLines : List String
  uptimeOffset : ℚ
  stopReason : StopReason
deriving DecidableEq, Repr

/-- The `ErrorOutput` message built at lines 67-69 for a caught
`CalledProcessError`. -/
def launchErrorMsg (returncode : Int) (output : String) : String :=
  "/usr/bin/rtla failed with return code " ++ toString returncode ++ ":\n" ++ output

/-- The step function `run_timerlat` (lines 50-321) as a function of its parameters and
environment: launch (an exception is answered with an `ErrorOutput` only
when it is a `CalledProcessError`), the wait/interrupt block (which
produces actions but no data), the report parse of the captured stdout,
the time-series section when enabled and available, and the final
`"success"` tuple. -/
def run_timerlat (p : TimerlatInputParams) (env : RunEnv) : RunResult :=
  match env.launch with
  | .raised (.calledProcessError rc out) => .errorOutput (launchErrorMsg rc out)
  | .raised e => .uncaughtExc e
  | .started =>
    match parseReport env.timerlatOutput p with
    | .error e => .uncaughtExc e
    | .ok r =>
      if p.enable_time_series && env.traceFileExists then
        match tsSection p env.uptimeOffset env.traceLines with
        | .error e => .uncaughtExc e
        | .ok td =>
          .success ⟨r.time_unit, r.latency_hist, r.stats_per_col,
            r.total_irq_latency, r.total_thr_latency, r.total_usr_latency, some td⟩
      else
        .success ⟨r.time_unit, r.latency_hist, r.stats_per_col,
          r.total_irq_latency, r.total_thr_latency, r.total_usr_latency,
          if p.enable_time_series then some [] else none⟩

/-! ## Claim C9: the Flag Builder -/

/-- What one dictionary entry contributes to the flag list: nothing when
the value is falsy, otherwise its flag token followed by its rendered
value tokens. -/
def flagRender (kv : String × FlagVal) : List String :=
  if kv.2.truthy then
    ("-" ++ kv.1) ::
      (match kv.2 with
       | .vList (some l) => [String.intercalate "," (l.map toString)]
       | .vInt (some i) => [toString i]
       | _ => [])
  else []

theorem foldl_append_eq_flatMap {α β : Type} (g : α → List β) (ps : List α)
    (acc : List β) :
    ps.foldl (fun r x => r ++ g x) acc = acc ++ ps.flatMap g := by
  induction ps generalizing acc with
  | nil => simp
  | cons x ps ih => simp [ih]

theorem params_to_flags_eq_flatMap (ps : List (String × FlagVal)) :
    params_to_flags ps = ps.flatMap flagRender := by
  have hstep :
      (fun (result : List String) (kv : String × FlagVal) =>
        if kv.2.truthy then
          result ++ [("-" ++ kv.1)] ++
            (match kv.2 with
             | .vList (some l) => [String.intercalate "," (l.map toString)]
             | .vInt (some i) => [toString i]
             | _ => [])
        else result)
      = fun result kv => result ++ flagRender kv := by
    funext r kv
    by_cases h : kv.2.truthy <;> simp [flagRender, h]
  show (List.foldl _ [] ps) = _
  rw [show (fun (result : List String) (kv : String × FlagVal) =>
        if kv.2.truthy then
          result ++ [("-" ++ kv.1)] ++
            (match kv.2 with
             | .vList (some l) => [String.intercalate "," (l.map toString)]
             | .vInt (some i) => [toString i]
             | _ => [])
        else result) = fun result kv => result ++ flagRender kv from hstep,
      foldl_append_eq_flatMap]
  simp

/-- The rendering the spec describes (spec-side definition, for the
refinement comparison with `to_flags`): in the fixed field order, each
non-empty (Python-truthy: not `None`/`False`/`0`/`[]`) field contributes
exactly one flag token; a numeric field's token is followed by exactly
its stringified value, a list-valued field's token by exactly one
comma-joined argument, and a boolean field's token by nothing. -/
def specFlagRendering (p : TimerlatInputParams) : List String :=
  (if (FlagVal.vInt p.period).truthy then
    ["-p", toString (p.period.getD 0)] else []) ++
  (if (FlagVal.vList p.cpus).truthy then
    ["-c", String.intercalate "," ((p.cpus.getD []).map toString)] else []) ++
  (if (FlagVal.vList p.house_keeping).truthy then
    ["-H", String.intercalate "," ((p.house_keeping.getD []).map toString)]
  else []) ++
  (if (FlagVal.vInt p.duration).truthy then
    ["-d", toString (p.duration.getD 0)] else []) ++
  (if (FlagVal.vBool p.nano).truthy then ["-n"] else []) ++
  (if (FlagVal.vInt p.bucket_size).truthy then
    ["-b", toString (p.bucket_size.getD 0)] else []) ++
  (if (FlagVal.vInt p.entries).truthy then
    ["-E", toString (p.entries.getD 0)] else []) ++
  (if (FlagVal.vBool p.user_threads).truthy then ["-u"] else [])

theorem flagRender_vInt (k : String) (i : Option Int) :
    flagRender (k, .vInt i) =
      if (FlagVal.vInt i).truthy then [("-" ++ k), toString (i.getD 0)]
      else [] := by
  cases i <;> simp [flagRender, FlagVal.truthy]

theorem flagRender_vList (k : String) (l : Option (List Int)) :
    flagRender (k, .vList l) =
      if (FlagVal.vList l).truthy then
        [("-" ++ k), String.intercalate "," ((l.getD []).map toString)]
      else [] := by
  cases l <;> simp [flagRender, FlagVal.truthy]

theorem flagRender_vBool (k : String) (b : Option Bool) :
    flagRender (k, .vBool b) =
      if (FlagVal.vBool b).truthy then [("-" ++ k)] else [] := by
  cases b <;> simp [flagRender, FlagVal.truthy]

/-- C9: for every CollectionRequest, the Flag Builder's output is exactly
the spec's rendering — one flag token per non-empty field, boolean flags
presence-only, numeric flags followed by their value, and each list-valued
field rendered as exactly one comma-joined argument after its flag
token. -/
theorem c9_flag_builder_renders_per_spec (p : TimerlatInputParams) :
    p.to_flags = specFlagRendering p := by
  have hp : "-" ++ "p" = "-p" := rfl
  have hc : "-" ++ "c" = "-c" := rfl
  have hH : "-" ++ "H" = "-H" := rfl
  have hd : "-" ++ "d" = "-d" := rfl
  have hn : "-" ++ "n" = "-n" := rfl
  have hb : "-" ++ "b" = "-b" := rfl
  have hE : "-" ++ "E" = "-E" := rfl
  have hu : "-" ++ "u" = "-u" := rfl
  simp only [TimerlatInputParams.to_flags, params_to_flags_eq_flatMap,
    List.flatMap_cons, List.flatMap_nil, flagRender_vInt, flagRender_vList,
    flagRender_vBool, hp, hc, hH, hd, hn, hb, hE, hu,
    List.append_nil, List.append_assoc, specFlagRendering]

/-! ## Claim C2: the post-wait interrupt -/

/-- C2 counterexample: when the wait stops because the duration elapsed,
`finished_early` is still `False` and the post-wait block sends no
interrupt at all to the measurement subprocess — the claim's "for every
stop reason ... sends an interrupt" fails on the duration-elapsed stop
reason (shown here with time series disabled and no trace file). -/
theorem c2_counterexample_no_sigint_on_timeout :
    OrchAction.sendSigintTimerlatProc ∉
      postWaitActions (finishedEarlyAfterWait .durationElapsed) false false := by
  decide

/-- C2 as amended: after the wait completes, the post-wait block sends
SIGINT to the measurement subprocess if and only if the stop was a
cancellation signal or a keyboard interrupt (`finished_early`); when the
duration elapsed on its own no signal is sent; in every case the final
action is `communicate()`, i.e. the captured stdout is read to completion
after any interrupt and before the report is parsed. -/
theorem c2_amended_sigint_iff_finished_early (r : StopReason) (ts tf : Bool) :
    (OrchAction.sendSigintTimerlatProc ∈
        postWaitActions (finishedEarlyAfterWait r) ts tf
      ↔ finishedEarlyAfterWait r = true)
    ∧ (postWaitActions (finishedEarlyAfterWait r) ts tf).getLast?
        = some .communicateTimerlat := by
  cases r <;> cases ts <;> cases tf <;> decide

/-! ## Claim C3: launch failure handling -/

/-- The environment of an invocation whose `Popen` call raised `e` (the
other fields are never reached). -/
def launchFailEnv (e : PyExc) : RunEnv :=
  ⟨.raised e, false, [], [], 0, .durationElapsed⟩

/-- C3 evidence: every exception `Popen` can actually raise when the
executable cannot be started escapes `run_timerlat` uncaught — the
`except subprocess.CalledProcessError` clause at line 66 guards an
exception `Popen` never raises, so no launch failure ever becomes an
`ErrorOutput`. -/
theorem c3_launch_failure_escapes_uncaught (p : TimerlatInputParams) (e : PyExc)
    (h : popenCanRaise e = true) :
    run_timerlat p (launchFailEnv e) = .uncaughtExc e := by
  cases e <;> simp_all [popenCanRaise, run_timerlat, launchFailEnv]

theorem c3_launch_failure_escapes_uncaught_witness :
    run_timerlat {} (launchFailEnv .fileNotFoundError)
      = .uncaughtExc .fileNotFoundError :=
  c3_launch_failure_escapes_uncaught {} .fileNotFoundError (by decide)

/-! ## Claim C10: the swallowed first trace line -/

/-- C10: for every non-empty trace capture, the emptiness check
`all(False for _ in timeseries_output)` consumes exactly the first line
from the shared file iterator, so the parsing loop runs over the tail
only — the result equals the plain loop over the remaining lines and is
independent of the first line's content, which therefore can never
contribute a point to any series. -/
theorem c10_first_trace_line_never_parsed (p : TimerlatInputParams) (off : ℚ)
    (l : String) (rest : List String) :
    tsSection p off (l :: rest)
      = (tsFold p off TSState.init rest).map (fun st => st.td)
    ∧ ∀ l' : String, tsSection p off (l :: rest) = tsSection p off (l' :: rest) :=
  ⟨rfl, fun _ => rfl⟩

/-! ## Claim C1: the documented two-CPU sample report -/

/-- The sample `rtla timerlat hist -u -d 1 -c 1,2 -E 10 -b 10` output
reproduced in the source commentary (lines 144-160), as the lines of the
captured stdout. -/
def sampleReport : List String :=
  ["# RTLA timerlat histogram",
   "# Time unit is microseconds (us)",
   "# Duration:   0 00:00:02",
   "Index   IRQ-001   Thr-001   Usr-001   IRQ-002   Thr-002   Usr-002",
   "0          1000       944       134       999       998       986",
   "10            0        55       863         0         1        13",
   "20            0         1         3         0         0         0",
   "over:         0         0         0         0         0         0",
   "count:     1000      1000      1000       999       999       999",
   "min:          0         3         4         0         2         3",
   "avg:          1         7        10         0         2         3",
   "max:          7        21        24         3        11        15",
   "ALL:        IRQ       Thr       Usr",
   "count:     1999      1999      1999",
   "min:          0         2         3",
   "avg:          0         4         6",
   "max:          7        21        24"]

/-- The request matching the sample (it was produced with `-u`, so the
user-threads flag is set). -/
def sampleParams : TimerlatInputParams := { user_threads := some true }

/-- C1: on the documented two-CPU sample report, the Report Parser emits
exactly the 3 histogram rows in emission order and produces the interrupt
aggregate {count 1999, min 0, avg 0, max 7}, the kernel-thread aggregate
{1999, 2, 4, 21}, and the user-thread aggregate {1999, 3, 6, 24}. -/
theorem c1_sample_report_parse :
    (parseReport sampleReport sampleParams).map
      (fun r => (r.latency_hist, r.total_irq_latency, r.total_thr_latency,
        r.total_usr_latency))
    = .ok
      ([[("index", .int 0), ("irq-001", .int 1000), ("thr-001", .int 944),
         ("usr-001", .int 134), ("irq-002", .int 999), ("thr-002", .int 998),
         ("usr-002", .int 986)],
        [("index", .int 10), ("irq-001", .int 0), ("thr-001", .int 55),
         ("usr-001", .int 863), ("irq-002", .int 0), ("thr-002", .int 1),
         ("usr-002", .int 13)],
        [("index", .int 20), ("irq-001", .int 0), ("thr-001", .int 1),
         ("usr-001", .int 3), ("irq-002", .int 0), ("thr-002", .int 0),
         ("usr-002", .int 0)]],
       ⟨some 1999, some 0, some 0, some 7⟩,
       ⟨some 1999, some 2, some 4, some 21⟩,
       some ⟨some 1999, some 3, some 6, some 24⟩) := by
  rfl

/-! ## Claim C4: malformed numeric tokens -/

/-- Whether the invocation ended in the `"error"` tuple (an `ErrorOutput`
error outcome). -/
def RunResult.isErrorOutput : RunResult → Bool
  | .errorOutput _ => true
  | _ => false

/-- The environment of an invocation whose launch succeeded and whose
captured rtla stdout is `lines` (time series disabled). -/
def reportEnv (lines : List String) : RunEnv :=
  ⟨.started, false, lines, [], 0, .durationElapsed⟩

/-- C4 counterexample: a report whose histogram row `0 abc` holds a
malformed numeric token makes the invocation escape with an uncaught
`ValueError` (from `int("abc")` at line 203) — it does not return an
error outcome. -/
theorem c4_counterexample_malformed_token_crashes :
    run_timerlat {}
      (reportEnv ["# Time unit is microseconds (us)", "Index IRQ-001",
        "0 abc", "ALL: IRQ Thr", "count: 1 2"])
      = .uncaughtExc (.valueError "abc")
    ∧ (run_timerlat {}
      (reportEnv ["# Time unit is microseconds (us)", "Index IRQ-001",
        "0 abc", "ALL: IRQ Thr", "count: 1 2"])).isErrorOutput = false := by
  exact ⟨rfl, rfl⟩

/-- Running Phase 2 over an appended line sequence: the left part either
never breaks (and the run continues into the right part from its final
state), breaks (leaving the right part appended to the unconsumed rest),
or raises. -/
theorem phase2Run_append (cols : List String) (st : P2State) (R S : List String) :
    phase2Run cols st (R ++ S) =
      match phase2Run cols st R with
      | .mid st' => phase2Run cols st' S
      | .done st' rest => .done st' (rest ++ S)
      | .exc e => .exc e := by
  induction R generalizing st with
  | nil => simp [phase2Run]
  | cons l R ih =>
    simp only [List.cons_append, phase2Run]
    cases phase2Step cols st l <;> simp [ih]

/-- C4 as amended: a malformed numeric token in a histogram or statistics
row — at any position the parser actually converts, i.e. within the
column-header range, where the lazy `zip` evaluates `int()` — aborts the
whole parse and the whole invocation with an uncaught exception carrying
the offending token; no error outcome and no partial result is
returned. -/
theorem c4_amended_malformed_token_uncaught (p : TimerlatInputParams)
    (env : RunEnv) (tu : String) (cols R : List String) (L : String)
    (rest : List String) (st : P2State) (t0 : String) (ts : List String)
    (e : PyExc)
    (h0 : env.launch = .started)
    (h1 : phase1 env.timerlatOutput "" = (tu, cols, R ++ L :: rest))
    (h2 : phase2Run cols P2State.init R = .mid st)
    (h3 : pySplit L = t0 :: ts)
    (h4 : pyStartsWith t0 "ALL" = false)
    (h5 : buildRow cols t0 ts = .error e) :
    run_timerlat p env = .uncaughtExc e := by
  have hrun : phase2Run cols P2State.init (R ++ L :: rest) = .exc e := by
    rw [phase2Run_append, h2]
    simp [phase2Run, phase2Step, h3, h4, h5]
  have hparse : parseReport env.timerlatOutput p = .error e := by
    simp only [parseReport]
    rw [h1]
    simp [hrun]
  simp only [run_timerlat]
  rw [h0, hparse]

theorem c4_amended_malformed_token_uncaught_witness :
    run_timerlat {} (reportEnv ["Index IRQ-001", "0 abc"])
      = .uncaughtExc (.valueError "abc") :=
  c4_amended_malformed_token_uncaught {} (reportEnv ["Index IRQ-001", "0 abc"])
    "" ["index", "irq-001"] [] "0 abc" [] P2State.init "0" ["abc"]
    (.valueError "abc") rfl rfl rfl rfl rfl rfl

/-! ## Claim C8: Phase-2 row routing -/

/-- C8 counterexample: before the `ALL` marker, the line `foo: 1` — whose
first token is none of the known statistic labels — is appended to the
statistics sequence anyway (any non-digit first token switches the
accumulator), and the subsequent line `5 2` — whose first token is
numeric — is then also appended to the statistics sequence, not the
histogram, because the accumulator is never switched back. -/
theorem c8_counterexample_row_routing :
    phase2Run ["index", "irq-001"] P2State.init ["foo: 1", "5 2"]
      = .mid ⟨[],
          [[("index", .str "foo"), ("irq-001", .int 1)],
           [("index", .int 5), ("irq-001", .int 2)]],
          true⟩ := by
  rfl

/-- C8 as amended: for every line before the `ALL` marker that builds a
row, the row is classified a statistics row exactly when the first token
is non-numeric — whatever its label, with its final character stripped —
and the row is appended to the histogram sequence only while the
accumulator has not yet switched (no non-numeric first token seen so
far); once it has switched, every row, numeric-indexed or not, is
appended to the statistics sequence. -/
theorem c8_amended_row_routing (cols : List String) (st : P2State)
    (L t0 : String) (ts : List String) (row : ReportRow) (isStats : Bool)
    (h1 : pySplit L = t0 :: ts)
    (h2 : pyStartsWith t0 "ALL" = false)
    (h3 : buildRow cols t0 ts = .ok (row, isStats)) :
    isStats = !(pyIsDigit t0)
    ∧ phase2Step cols st L =
        .cont (if st.accIsStats || isStats
          then ⟨st.hist, st.stats ++ [row], true⟩
          else ⟨st.hist ++ [row], st.stats, false⟩) := by
  have hstats : isStats = !(pyIsDigit t0) := by
    cases cols with
    | nil => simp [buildRow] at h3
    | cons c0 ctail =>
      cases hz : rowZipPairs ctail ts with
      | error e => simp [buildRow, hz, Except.map] at h3
      | ok pairs =>
        by_cases hd : pyIsDigit t0 <;>
          simp [buildRow, hz, hd, Except.map] at h3 <;>
          simp_all
  refine ⟨hstats, ?_⟩
  by_cases hacc : (st.accIsStats || isStats) = true <;>
    simp [phase2Step, h1, h2, h3, hacc]

theorem c8_amended_row_routing_witness :
    (true = !(pyIsDigit "foo:"))
    ∧ phase2Step ["index", "irq-001"] P2State.init "foo: 1" =
        .cont (if P2State.init.accIsStats || true
          then ⟨P2State.init.hist,
            P2State.init.stats ++ [[("index", .str "foo"), ("irq-001", .int 1)]],
            true⟩
          else ⟨P2State.init.hist ++ [[("index", .str "foo"), ("irq-001", .int 1)]],
            P2State.init.stats, false⟩) :=
  c8_amended_row_routing ["index", "irq-001"] P2State.init "foo: 1" "foo:" ["1"]
    [("index", .str "foo"), ("irq-001", .int 1)] true rfl rfl rfl

/-! ## Claim C7: the user-thread aggregate -/

theorem exc_bind_err {ε α β : Type} (f : α → Except ε β) (e : ε) :
    (do let x ← (Except.error e : Except ε α); f x) = Except.error e := rfl

theorem exc_bind_ok {ε α β : Type} (f : α → Except ε β) (a : α) :
    (do let x ← (Except.ok a : Except ε α); f x) = f a := rfl

theorem exc_map_err {ε α β : Type} (f : α → β) (e : ε) :
    (f <$> (Except.error e : Except ε α)) = Except.error e := rfl

theorem exc_map_ok {ε α β : Type} (f : α → β) (a : α) :
    (f <$> (Except.ok a : Except ε α)) = Except.ok (f a) := rfl

theorem parseReportPost_usr_iff (tu : String) (st : P2State)
    (rest3 : List String) (p : TimerlatInputParams) (r : ParsedReport)
    (h : parseReportPost tu st rest3 p = .ok r) :
    r.total_usr_latency.isSome = pyTruthyBool p.user_threads := by
  by_cases hu : pyTruthyBool p.user_threads = true
  · simp only [parseReportPost, hu, if_true] at h
    cases h3 : phase3 true [] [] [] rest3 with
    | error e =>
      rw [h3] at h
      simp [exc_bind_err] at h
    | ok v =>
      obtain ⟨irq, thr, usr⟩ := v
      rw [h3] at h
      simp only [exc_bind_ok] at h
      cases hi : unserializeStats irq with
      | error e =>
        rw [show unserializeStats (irq, thr, usr).1 = Except.error e from hi] at h
        simp [exc_bind_err] at h
      | ok irqS =>
        rw [show unserializeStats (irq, thr, usr).1 = Except.ok irqS from hi] at h
        simp only [exc_bind_ok] at h
        cases ht : unserializeStats thr with
        | error e =>
          rw [show unserializeStats (irq, thr, usr).2.1 = Except.error e from ht] at h
          simp [exc_bind_err] at h
        | ok thrS =>
          rw [show unserializeStats (irq, thr, usr).2.1 = Except.ok thrS from ht] at h
          simp only [exc_bind_ok] at h
          cases hu2 : unserializeStats usr with
          | error e =>
            rw [show unserializeStats (irq, thr, usr).2.2 = Except.error e from hu2]
              at h
            simp [Except.map, exc_map_err] at h
          | ok usrS =>
            rw [show unserializeStats (irq, thr, usr).2.2 = Except.ok usrS from hu2]
              at h
            simp only [Except.map, exc_map_ok, exc_bind_ok, pure, Except.pure,
              Except.ok.injEq] at h
            simp [← h, hu]
  · simp only [Bool.not_eq_true] at hu
    simp only [parseReportPost, hu, Bool.false_eq_true, if_false] at h
    cases h3 : phase3 false [] [] [] rest3 with
    | error e =>
      rw [h3] at h
      simp [exc_bind_err] at h
    | ok v =>
      obtain ⟨irq, thr, usr⟩ := v
      rw [h3] at h
      simp only [exc_bind_ok] at h
      cases hi : unserializeStats irq with
      | error e =>
        rw [show unserializeStats (irq, thr, usr).1 = Except.error e from hi] at h
        simp [exc_bind_err] at h
      | ok irqS =>
        rw [show unserializeStats (irq, thr, usr).1 = Except.ok irqS from hi] at h
        simp only [exc_bind_ok] at h
        cases ht : unserializeStats thr with
        | error e =>
          rw [show unserializeStats (irq, thr, usr).2.1 = Except.error e from ht] at h
          simp [exc_bind_err] at h
        | ok thrS =>
          rw [show unserializeStats (irq, thr, usr).2.1 = Except.ok thrS from ht] at h
          simp only [exc_bind_ok, pure, Except.pure, Except.ok.injEq] at h
          simp [← h, hu]

theorem parseReport_usr_iff (lines : List String) (p : TimerlatInputParams)
    (r : ParsedReport) (h : parseReport lines p = .ok r) :
    r.total_usr_latency.isSome = pyTruthyBool p.user_threads := by
  simp only [parseReport] at h
  rcases hph : phase1 lines "" with ⟨tu, cols, rest⟩
  rw [hph] at h
  cases hrun : phase2Run cols P2State.init rest with
  | mid st =>
    rw [hrun] at h
    exact parseReportPost_usr_iff _ _ _ _ _ h
  | done st rest3 =>
    rw [hrun] at h
    exact parseReportPost_usr_iff _ _ _ _ _ h
  | exc e => rw [hrun] at h; simp at h

/-- C7: whenever the invocation returns a success outcome, the
user-thread aggregate is present if and only if the request's
user-thread flag was truthy — when the flag is unset the aggregate is
`None`, never an empty-but-present record. -/
theorem c7_usr_aggregate_present_iff_flag (p : TimerlatInputParams)
    (env : RunEnv) (out : TimerlatOutput)
    (h : run_timerlat p env = .success out) :
    out.total_usr_latency.isSome = pyTruthyBool p.user_threads := by
  unfold run_timerlat at h
  cases hl : env.launch with
  | raised e => rw [hl] at h; cases e <;> simp at h
  | started =>
    rw [hl] at h
    cases hp : parseReport env.timerlatOutput p with
    | error e => rw [hp] at h; simp at h
    | ok r =>
      rw [hp] at h
      have husr := parseReport_usr_iff _ _ _ hp
      by_cases hts : (p.enable_time_series && env.traceFileExists) = true
      · simp only [hts, if_true] at h
        cases hsec : tsSection p env.uptimeOffset env.traceLines with
        | error e => rw [hsec] at h; simp at h
        | ok td =>
          rw [hsec] at h
          simp only [RunResult.success.injEq] at h
          rw [← h]
          exact husr
      · simp only [Bool.not_eq_true] at hts
        simp only [hts, Bool.false_eq_true, if_false, RunResult.success.injEq] at h
        rw [← h]
        exact husr

theorem c7_usr_aggregate_present_iff_flag_witness :
    (⟨"", [], [], ⟨none, none, none, none⟩, ⟨none, none, none, none⟩,
      none, none⟩ : TimerlatOutput).total_usr_latency.isSome
      = pyTruthyBool ({} : TimerlatInputParams).user_threads :=
  c7_usr_aggregate_present_iff_flag {} (reportEnv [])
    ⟨"", [], [], ⟨none, none, none, none⟩, ⟨none, none, none, none⟩,
      none, none⟩ rfl

/-! ## Claim C5: malformed trace lines -/

/-- A request with time-series collection enabled (CPU set unset, so the
CPU filter short-circuits). -/
def tsParams : TimerlatInputParams :=
  { enable_time_series := true, time_series_resolution := 1 }

/-- An environment whose launch succeeded, whose report was empty, and
whose trace capture holds `traceLines` (the first line is consumed by the
emptiness check). -/
def traceEnv (traceLines : List String) : RunEnv :=
  ⟨.started, true, [], traceLines, 0, .durationElapsed⟩

/-- C5 evidence: a trace line whose bracketed CPU field is malformed but
whose remaining three fields still parse at the positions shifted by the
single `pop` does not discard-and-succeed at all — the loop body goes on
to use the local `cpu`, which no line ever assigned, and the invocation
escapes with an uncaught `UnboundLocalError` instead of returning a
success outcome. -/
theorem c5_malformed_cpu_field_crashes :
    run_timerlat tsParams
      (traceEnv ["swallowed", "a BAD b c 1.5: d e irq f 7"])
      = .uncaughtExc (.nameError "cpu") := by
  rfl

instance {e a : Type} [DecidableEq e] [DecidableEq a] : DecidableEq (Except e a) :=
  fun x y =>
    match x, y with
    | .error v, .error w =>
      if h : v = w then .isTrue (by rw [h]) else .isFalse (by simp [h])
    | .error _, .ok _ => .isFalse (by simp)
    | .ok _, .error _ => .isFalse (by simp)
    | .ok v, .ok w =>
      if h : v = w then .isTrue (by rw [h]) else .isFalse (by simp [h])

/-! ## Claim C6: the downsampling gap -/

/-- C6 counterexample: with a minimum interval of 1 second, the two
samples of key `cpu1_irq` at monotonic timestamps 0.0 and 0.5 are both
retained — a retained sample whose monotonic timestamp is exactly `0`
collides with the `last_uptimestamp` falsy-sentinel (line 294), so the
gap test is skipped for its successor — yet their gap 0.5 is smaller
than the minimum interval and the second sample is not the first of its
key. -/
theorem c6_counterexample_zero_sentinel :
    (tsSection tsParams 0
      ["swallowed",
       "A-0 [1] d. 0.000000: #1 context irq timer_latency 10 ns",
       "A-0 [1] d. 0.500000: #2 context irq timer_latency 11 ns"]).map
      (fun td => (dget? td "cpu1_irq").map (fun pts => pts.map TSPoint.timestamp))
      = .ok (some [0, 1/2])
    ∧ ((1 : ℚ)/2 - 0) - (0 - 0) < tsParams.time_series_resolution := by
  constructor
  · with_unfolding_all decide
  · norm_num [tsParams]

/-- The downsampling relation between consecutively retained points of
one key: when the earlier point's monotonic timestamp (its stored
wall-clock timestamp minus the one-time offset) is nonzero, the later
point lies at least the minimum interval `res` after it. -/
def gapRel (off res : ℚ) (a b : TSPoint) : Prop :=
  a.timestamp - off ≠ 0 → res ≤ b.timestamp - a.timestamp

/-- The retention invariant of the trace-line loop: every series in
`timeseries_dict` is chained by `gapRel`, and for a nonempty series the
stored `last_uptimestamp` of its key is the last retained point's
monotonic timestamp. -/
def TSInv (off res : ℚ) (td : List (String × List TSPoint))
    (lastUp : List (String × ℚ)) : Prop :=
  ∀ key pts, dget? td key = some pts →
    List.Chain' (gapRel off res) pts ∧
    ∀ pt, pts.getLast? = some pt →
      dget? lastUp key = some (pt.timestamp - off)

theorem TSInv_nil (off res : ℚ) (lastUp : List (String × ℚ)) :
    TSInv off res [] lastUp := by
  intro key pts hk
  simp [dget?] at hk

/-- Initializing the two dict entries of a key (lines 290-293) preserves
the invariant. -/
theorem TSInv_init (off res : ℚ) (td : List (String × List TSPoint))
    (lastUp : List (String × ℚ)) (key : String)
    (h : TSInv off res td lastUp) :
    TSInv off res (if (dget? td key).isSome then td else dset td key [])
      (if (dget? lastUp key).isSome then lastUp else dset lastUp key 0) := by
  by_cases h1 : (dget? td key).isSome
  · by_cases h2 : (dget? lastUp key).isSome
    · rw [if_pos h1, if_pos h2]
      exact h
    · rw [if_pos h1, if_neg h2]
      intro k pts hk
      refine ⟨(h k pts hk).1, fun pt hpt => ?_⟩
      have hcoh := (h k pts hk).2 pt hpt
      by_cases hkk : key = k
      · subst hkk
        simp [hcoh] at h2
      · rw [dget?_dset_ne _ _ _ _ hkk]
        exact hcoh
  · by_cases h2 : (dget? lastUp key).isSome
    · rw [if_neg h1, if_pos h2]
      intro k pts hk
      by_cases hkk : key = k
      · subst hkk
        rw [dget?_dset_self] at hk
        cases hk
        exact ⟨List.chain'_nil, by simp⟩
      · rw [dget?_dset_ne _ _ _ _ hkk] at hk
        exact h k pts hk
    · rw [if_neg h1, if_neg h2]
      intro k pts hk
      by_cases hkk : key = k
      · subst hkk
        rw [dget?_dset_self] at hk
        cases hk
        exact ⟨List.chain'_nil, by simp⟩
      · rw [dget?_dset_ne _ _ _ _ hkk] at hk
        refine ⟨(h k pts hk).1, fun pt hpt => ?_⟩
        rw [dget?_dset_ne _ _ _ _ hkk]
        exact (h k pts hk).2 pt hpt

theorem dget?_init_isSome {α : Type} (d : List (String × α)) (key : String)
    (v : α) :
    (dget? (if (dget? d key).isSome then d else dset d key v) key).isSome := by
  by_cases h : (dget? d key).isSome
  · rw [if_pos h]
    exact h
  · rw [if_neg h, dget?_dset_self]
    rfl

/-- Retaining or skipping one sample (`tsProceed`) preserves the
invariant: the gap test that was just passed (or the falsy sentinel that
bypassed it) is exactly what the new last chain link needs. -/
theorem tsProceed_inv (p : TimerlatInputParams) (off : ℚ) (st : TSState)
    (up : ℚ) (ctx : String) (lat : Int) (c : Int)
    (h : TSInv off p.time_series_resolution st.td st.lastUp) :
    TSInv off p.time_series_resolution (tsProceed p off st up ctx lat c).td
      (tsProceed p off st up ctx lat c).lastUp := by
  unfold tsProceed
  set key := "cpu" ++ toString c ++ "_" ++ ctx with hkeydef
  set tdI := (if (dget? st.td key).isSome then st.td else dset st.td key [])
    with htdI
  set lastUpI :=
    (if (dget? st.lastUp key).isSome then st.lastUp else dset st.lastUp key 0)
    with hluI
  have hInit : TSInv off p.time_series_resolution tdI lastUpI :=
    TSInv_init off p.time_series_resolution st.td st.lastUp key h
  by_cases hskip : ((dget? lastUpI key).getD 0 ≠ 0 ∧
      up - (dget? lastUpI key).getD 0 < p.time_series_resolution)
  · rw [if_pos hskip]
    exact hInit
  · rw [if_neg hskip]
    intro k pts hk
    by_cases hkk : key = k
    · subst hkk
      simp only at hk
      rw [dget?_dset_self] at hk
      cases hk
      have hSome := dget?_init_isSome st.td key ([] : List TSPoint)
      rw [← htdI] at hSome
      obtain ⟨pts0, hpts0⟩ := Option.isSome_iff_exists.mp hSome
      obtain ⟨hchain0, hcoh0⟩ := hInit key pts0 hpts0
      simp only [hpts0, Option.getD_some]
      constructor
      · refine List.chain'_append.mpr ⟨hchain0, List.chain'_singleton _, ?_⟩
        intro x hx y hy
        simp only [List.head?_cons, Option.mem_def, Option.some.injEq] at hy
        subst hy
        have hlu := hcoh0 x hx
        intro hxnz
        have hl : (dget? lastUpI key).getD 0 = x.timestamp - off := by
          rw [hlu]
          rfl
        have hnlt : ¬ (up - (dget? lastUpI key).getD 0 <
            p.time_series_resolution) := by
          intro hlt
          exact hskip ⟨by rw [hl]; exact hxnz, hlt⟩
        rw [hl] at hnlt
        have := not_lt.mp hnlt
        simp only [TSPoint.mk.injEq]
        linarith
      · intro pt' hpt'
        rw [List.getLast?_concat] at hpt'
        cases hpt'
        rw [dget?_dset_self]
        congr 1
        ring
    · simp only at hk
      rw [dget?_dset_ne _ _ _ _ hkk] at hk
      obtain ⟨hchain, hcoh⟩ := hInit k pts hk
      refine ⟨hchain, fun pt hpt => ?_⟩
      rw [dget?_dset_ne _ _ _ _ hkk]
      exact hcoh pt hpt

/-- One trace line preserves the invariant along `cont` and `halt`
results (a discard-halt empties the dict, trivially restoring it). -/
theorem tsStep_inv (p : TimerlatInputParams) (off : ℚ) (st : TSState)
    (line : String) (h : TSInv off p.time_series_resolution st.td st.lastUp) :
    match tsStep p off st line with
    | .cont st' => TSInv off p.time_series_resolution st'.td st'.lastUp
    | .halt st' => TSInv off p.time_series_resolution st'.td st'.lastUp
    | .exc _ => True := by
  unfold tsStep
  rcases hbs : bracketScan (pySplit line) st.cpuVar with ⟨toks, cpuVar⟩
  dsimp only
  cases hex : extract4 toks with
  | none => exact TSInv_nil _ _ _
  | some v =>
    obtain ⟨up, ctx, lat⟩ := v
    dsimp only
    by_cases hcl : pyTruthyList p.cpus = true
    · rw [if_pos hcl]
      cases cpuVar with
      | none => trivial
      | some c =>
        dsimp only
        by_cases hmem : c ∈ (p.cpus.getD [])
        · rw [if_pos hmem]
          exact tsProceed_inv p off st up ctx lat c h
        · rw [if_neg hmem]
          exact h
    · rw [if_neg hcl]
      cases cpuVar with
      | none => trivial
      | some c =>
        dsimp only
        exact tsProceed_inv p off st up ctx lat c h

/-- The trace-line fold preserves the invariant. -/
theorem tsFold_inv (p : TimerlatInputParams) (off : ℚ) (lines : List String)
    (st st' : TSState)
    (h : TSInv off p.time_series_resolution st.td st.lastUp)
    (hf : tsFold p off st lines = .ok st') :
    TSInv off p.time_series_resolution st'.td st'.lastUp := by
  induction lines generalizing st with
  | nil =>
    simp only [tsFold] at hf
    cases hf
    exact h
  | cons l ls ih =>
    simp only [tsFold] at hf
    have hstep := tsStep_inv p off st l h
    cases hs : tsStep p off st l with
    | cont st2 =>
      rw [hs] at hf hstep
      exact ih st2 hstep hf
    | halt st2 =>
      rw [hs] at hf hstep
      cases hf
      exact hstep
    | exc e =>
      rw [hs] at hf
      cases hf

/-- Every series the time-series section returns is chained by
`gapRel` for some last-timestamp table. -/
theorem tsSection_chain (p : TimerlatInputParams) (off : ℚ)
    (lines : List String) (td : List (String × List TSPoint)) (key : String)
    (pts : List TSPoint)
    (hrun : tsSection p off lines = .ok td)
    (hkey : dget? td key = some pts) :
    List.Chain' (gapRel off p.time_series_resolution) pts := by
  unfold tsSection at hrun
  rcases hpc : pyAllFalseConsume lines with ⟨b, rest⟩
  rw [hpc] at hrun
  dsimp only at hrun
  cases hf : tsFold p off TSState.init rest with
  | error e =>
    rw [hf] at hrun
    cases hrun
  | ok st' =>
    rw [hf] at hrun
    simp only [Except.map, Except.ok.injEq] at hrun
    have hinit : TSInv off p.time_series_resolution TSState.init.td
        TSState.init.lastUp := TSInv_nil _ _ _
    have hinv := tsFold_inv p off _ _ _ hinit hf
    rw [← hrun] at hkey
    exact (hinv key pts hkey).1

/-- From consecutive `gapRel` links to any two retained samples: when the
minimum interval is nonnegative and every sample from position `i` up to
(excluding) `j` has a nonzero monotonic timestamp, the `j`-th sample lies
at least the minimum interval after the `i`-th. -/
theorem chain_gap_bound (off res : ℚ) (hres : 0 ≤ res) (pts : List TSPoint)
    (hch : List.Chain' (gapRel off res) pts) (i j : ℕ)
    (hi : i < pts.length) (hj : j < pts.length) (hij : i < j)
    (hnz : ∀ k (hk : k < pts.length), i ≤ k → k < j →
      (pts.get ⟨k, hk⟩).timestamp - off ≠ 0) :
    res ≤ (pts.get ⟨j, hj⟩).timestamp - (pts.get ⟨i, hi⟩).timestamp := by
  have hstep := List.chain'_iff_get.mp hch
  induction j with
  | zero => omega
  | succ j ih =>
    by_cases hji : i = j
    · subst hji
      have hlink := hstep i (by omega)
      exact hlink (hnz i hi (le_refl i) (by omega))
    · have hij' : i < j := by omega
      have hj' : j < pts.length := by omega
      have h1 : res ≤ (pts.get ⟨j, hj'⟩).timestamp -
          (pts.get ⟨i, hi⟩).timestamp :=
        ih hj' hij' (fun k hk hik hkj => hnz k hk hik (by omega))
      have h2 : res ≤ (pts.get ⟨j + 1, hj⟩).timestamp -
          (pts.get ⟨j, hj'⟩).timestamp := by
        have hlink := hstep j (by omega)
        exact hlink (hnz j hj' (by omega) (by omega))
      linarith

/-- C6 as amended: for every trace capture, every (CPU, context) key and
any two retained samples under that key, IF the minimum sampling interval
is nonnegative AND the earlier sample and all retained samples between the
two have nonzero monotonic timestamps (a retained sample at monotonic
timestamp exactly 0 collides with the falsy `last_uptimestamp` sentinel
and exempts its successor from the gap test), THEN the gap between the two
samples' monotonic timestamps — equal to the gap between their stored
wall-clock timestamps — is at least the minimum sampling interval.  The
first retained sample of a key is exempt, as the claim says. -/
theorem c6_amended_downsampling_gap (p : TimerlatInputParams) (off : ℚ)
    (lines : List String) (td : List (String × List TSPoint)) (key : String)
    (pts : List TSPoint) (i j : ℕ)
    (hres : 0 ≤ p.time_series_resolution)
    (hrun : tsSection p off lines = .ok td)
    (hkey : dget? td key = some pts)
    (hi : i < pts.length) (hj : j < pts.length) (hij : i < j)
    (hnz : ∀ k (hk : k < pts.length), i ≤ k → k < j →
      (pts.get ⟨k, hk⟩).timestamp - off ≠ 0) :
    p.time_series_resolution ≤
      (pts.get ⟨j, hj⟩).timestamp - (pts.get ⟨i, hi⟩).timestamp :=
  chain_gap_bound off p.time_series_resolution hres pts
    (tsSection_chain p off lines td key pts hrun hkey) i j hi hj hij hnz

theorem c6_amended_downsampling_gap_witness :
    tsParams.time_series_resolution ≤
      (([⟨5, 10⟩, ⟨13/2, 11⟩] : List TSPoint).get ⟨1, by decide⟩).timestamp -
      (([⟨5, 10⟩, ⟨13/2, 11⟩] : List TSPoint).get ⟨0, by decide⟩).timestamp :=
  c6_amended_downsampling_gap tsParams 0
    ["skip",
     "A-0 [1] d. 5.000000: #1 context irq timer_latency 10 ns",
     "A-0 [1] d. 6.500000: #2 context irq timer_latency 11 ns"]
    [("cpu1_irq", [⟨5, 10⟩, ⟨13/2, 11⟩])] "cpu1_irq" [⟨5, 10⟩, ⟨13/2, 11⟩] 0 1
    (by norm_num [tsParams])
    (by with_unfolding_all decide)
    (by with_unfolding_all decide)
    (by decide) (by decide) (by decide)
    (by
      intro k hk h1 h2
      have hk0 : k = 0 := by omega
      subst hk0
      norm_num)
